import Mathlib

/-!
Verification of the NL2SQL map-reduce agent (`src/nl2sql_agent_mapreduce.py`,
`src/query_planner.py`, `src/visualization_assessor.py`, `src/plot_generator.py`,
`src/database_connector.py`).

The Python code is shallowly embedded: cell values returned by SQLite become the
inductive type `Value` (with rationals standing in for Python floats, which only
undergo comparisons and class tests in the verified code paths), result rows
become association lists, external capabilities (the Azure OpenAI completion
call, JSON parsing of model output, SQLite execution) become function
parameters, and code raising exceptions is modelled in `Except`.
-/

namespace NL2SQL

/-- Python value as returned by `sqlite3` rows and `json.loads`: int, float,
str or None.  Floats are modelled as rationals; the embedded code only compares
them and tests their class. -/
inductive Value where
  | intV (n : Int)
  | floatV (q : ℚ)
  | strV (s : String)
  | noneV
deriving DecidableEq, Repr

/-- A result row: one Python dict, as produced by
`DatabaseConnector.execute_query` (`dict(zip(columns, row))`). -/
abbrev Row := List (String × Value)

/-- A value is a Python `int` or `float` (`isinstance(v, (int, float))`). -/
def Value.isNum : Value → Bool
  | .intV _ => true
  | .floatV _ => true
  | _ => false

/-- A value is Python `None`. -/
def Value.isNone : Value → Bool
  | .noneV => true
  | _ => false

/-- Numeric view of a value, for `min`/`max` comparisons in the plot
generator. -/
def Value.toRat? : Value → Option ℚ
  | .intV n => some (n : ℚ)
  | .floatV q => some q
  | _ => none

/-- Python `str(v)` for the values that can appear here. -/
def Value.pyStr : Value → String
  | .intV n => toString n
  | .floatV q => toString q
  | .strV s => s
  | .noneV => "None"

/-- Python `row.get(col)`, with `None` (either a stored `None` or a missing
key) mapped to `Option.none` — the callers always guard with
`is not None`. -/
def rowGet (r : Row) (col : String) : Option Value :=
  match r.lookup col with
  | some v => if v.isNone then none else some v
  | none => none

/-! String helpers: substring search and the regular-expression fragments used
by the Python code, executable over character lists. -/

/-- Helper for substring containment: does `sub` occur in `s`
(Python `sub in s`)? -/
def containsChars (s sub : List Char) : Bool :=
  match s with
  | [] => sub.isEmpty
  | _ :: t => sub.isPrefixOf s || containsChars t sub

/-- Python `sub in s` on strings. -/
def strContains (s sub : String) : Bool :=
  containsChars s.toList sub.toList

/-- Python `str.lower()`, character-wise (the ASCII case mapping suffices for
the embedded keyword tests). -/
def strLower (s : String) : String :=
  ⟨s.data.map Char.toLower⟩

/-- Python `str.strip()`: drop leading and trailing whitespace. -/
def pyStrip (s : String) : String :=
  ⟨((s.data.dropWhile Char.isWhitespace).reverse.dropWhile Char.isWhitespace).reverse⟩

/-- Case-insensitive prefix test (the Python regexes use `re.IGNORECASE`). -/
def startsWithCI (pat s : List Char) : Bool :=
  match pat, s with
  | [], _ => true
  | _ :: _, [] => false
  | p :: ps, c :: cs => (c.toLower == p.toLower) && startsWithCI ps cs

/-- Regex word character `\w`: `[A-Za-z0-9_]`. -/
def isWordChar (c : Char) : Bool :=
  c.isAlphanum || c == '_'

/-- One position of the search for `\bKW\b` (case-insensitive): `kw` starts
here, the previous character (if any) is not a word character, and neither is
the character following the match. -/
def wordMatchAt (kw : List Char) (prev : Option Char) (s : List Char) : Bool :=
  startsWithCI kw s
    && (match prev with
        | some c => !isWordChar c
        | none => true)
    && (match s.drop kw.length with
        | [] => true
        | c :: _ => !isWordChar c)

/-- Scan of `s` for a word-bounded, case-insensitive occurrence of `kw`. -/
def scanWord (kw : List Char) : Option Char → List Char → Bool
  | prev, [] => wordMatchAt kw prev []
  | prev, c :: cs => wordMatchAt kw prev (c :: cs) || scanWord kw (some c) cs

/-- Model of `re.search(r'\bKW\b', s, re.IGNORECASE)` for a literal keyword
`kw` (possibly containing a space, as in `GROUP BY`). -/
def containsWordCI (s kw : String) : Bool :=
  scanWord kw.toList none s.toList

/-- One position of the search for `SELECT\s+\*` (case-insensitive):
`SELECT` starts here, followed by at least one whitespace character whose
maximal run is followed by `*`. -/
def selectStarAt (s : List Char) : Bool :=
  startsWithCI "select".toList s
    && (match s.drop 6 with
        | [] => false
        | c :: _ =>
          c.isWhitespace && ((s.drop 6).dropWhile Char.isWhitespace).headD 'x' == '*')

/-- Scan of every suffix of `s` by predicate `p`. -/
def anySuffix (p : List Char → Bool) : List Char → Bool
  | [] => p []
  | c :: cs => p (c :: cs) || anySuffix p cs

/-- Model of `re.search(r'SELECT\s+\*', query, re.IGNORECASE)`. -/
def containsSelectStar (s : String) : Bool :=
  anySuffix selectStarAt s.toList

namespace VisualizationAssessor

/-- The dict returned by `VisualizationAssessor.should_visualize`. -/
structure Verdict where
  should_visualize : Bool
  reason : String
  chart_type : Option String
  display_format : Option String := none
deriving DecidableEq, Repr

/-- Keyword list of `_looks_like_pivot`. -/
def pivot_keywords : List String :=
  ["q1", "q2", "q3", "q4", "jan", "feb", "mar", "apr", "may", "jun",
   "jul", "aug", "sep", "oct", "nov", "dec", "product", "region"]

/-- `VisualizationAssessor._looks_like_pivot`: at least three columns, of
which at least two contain a pivot keyword (lower-cased substring test). -/
def looks_like_pivot (columns : List String) : Bool :=
  if columns.length < 3 then false
  else
    let col_lower := columns.map strLower
    let nMatches := (col_lower.filter (fun col =>
      pivot_keywords.any (fun kw => strContains col kw))).length
    2 ≤ nMatches

/-- Keyword list of `_has_time_column`. -/
def time_keywords : List String :=
  ["date", "time", "year", "month", "day", "week", "quarter",
   "period", "timestamp", "created", "updated"]

/-- `VisualizationAssessor._has_time_column`: some lower-cased column NAME
contains one of the time keywords.  Note this inspects only names, never
values. -/
def has_time_column (columns : List String) : Bool :=
  (columns.map strLower).any (fun col =>
    time_keywords.any (fun kw => strContains col kw))

/-- `VisualizationAssessor._has_category_and_metrics`: the first column holds
strings and some later column holds numbers (judged from the first non-null
value of each). -/
def has_category_and_metrics (columns : List String) (results : List Row) : Bool :=
  if columns.length < 2 || results.length == 0 then false
  else
    let first_col := columns.headD ""
    let first_values := results.filterMap (fun r => rowGet r first_col)
    if first_values.isEmpty then false
    else
      let first_is_string :=
        match first_values.headD .noneV with
        | .strV _ => true
        | _ => false
      if first_is_string && 2 ≤ columns.length then
        (columns.drop 1).any (fun col =>
          match results.filterMap (fun r => rowGet r col) with
          | [] => false
          | v :: _ => v.isNum)
      else false

/-- `VisualizationAssessor.should_visualize`: the rule table over the result
shape.  `question` and `sql` are accepted and ignored, exactly as in the
source. -/
def should_visualize (question sql : String) (results : List Row)
    (columns : List String) : Verdict :=
  if results.length = 0 then
    { should_visualize := false, reason := "No data returned from query",
      chart_type := none }
  else if results.length = 1 ∧ columns.length = 1 then
    { should_visualize := false,
      reason := "Single scalar value - better displayed as text",
      chart_type := none, display_format := some "scalar" }
  else if results.length = 1 ∧ 1 < columns.length then
    if looks_like_pivot columns then
      { should_visualize := true,
        reason := "Single row with multiple category columns - good for bar chart",
        chart_type := some "bar" }
    else
      { should_visualize := false,
        reason := "Single row with mixed columns - better as table",
        chart_type := none }
  else if 2 ≤ results.length ∧ columns.length = 2 then
    { should_visualize := true,
      reason := "Multiple rows with category-value pairs - ideal for charts",
      chart_type := some "auto" }
  else if 2 ≤ results.length ∧ 3 ≤ columns.length then
    if has_time_column columns then
      { should_visualize := true,
        reason := "Time-series data detected - good for line chart",
        chart_type := some "line" }
    else if has_category_and_metrics columns results then
      { should_visualize := true,
        reason := "Category with multiple metrics - good for grouped bar chart",
        chart_type := some "bar" }
    else
      { should_visualize := false,
        reason := "Complex multi-column data - better as table",
        chart_type := none }
  else
    { should_visualize := false,
      reason := "Data structure not suitable for standard visualizations",
      chart_type := none }

end VisualizationAssessor

namespace PlotGenerator

/-- Column names of `pd.DataFrame(results)`: union of the row dicts' keys in
first-appearance order. -/
def dfColumns (results : List Row) : List String :=
  ((results.map (fun r => r.map Prod.fst)).flatten).foldl
    (fun acc k => if acc.contains k then acc else acc ++ [k]) []

/-- The pandas column `df[col]`: one entry per row, missing keys becoming
`NaN` (modelled by `noneV`). -/
def columnValues (results : List Row) (col : String) : List Value :=
  results.map (fun r => (r.lookup col).getD .noneV)

/-- `pd.api.types.is_numeric_dtype` for a column built from Python dicts: the
column holds at least one number and nothing besides numbers and nulls
(otherwise pandas infers `object` dtype). -/
def isNumericDtype (vs : List Value) : Bool :=
  vs.any Value.isNum && vs.all (fun v => v.isNum || v.isNone)

/-- Maximal leading digit run of `s`, with the rest. -/
def takeDigits (s : List Char) : Nat × List Char :=
  let ds := s.takeWhile Char.isDigit
  (ds.length, s.drop ds.length)

/-- A `[dash/slash]` separator. -/
def dateSep : List Char → Option (List Char)
  | c :: cs => if c == '-' || c == '/' then some cs else none
  | [] => none

/-- First alternative of the code's date regex:
`^\d{4}[dash/slash]\d{1,2}(?:[dash/slash]\d{1,2})?$`. -/
def datePat1 (s : List Char) : Bool :=
  let (n, r) := takeDigits s
  n == 4 &&
    (match dateSep r with
     | none => false
     | some r1 =>
       let (m, r2) := takeDigits r1
       (1 ≤ m && m ≤ 2) &&
         (r2.isEmpty ||
           (match dateSep r2 with
            | none => false
            | some r3 =>
              let (k, r4) := takeDigits r3
              (1 ≤ k && k ≤ 2) && r4.isEmpty)))

/-- Second alternative of the code's date regex:
`^\d{1,2}[dash/slash]\d{1,2}[dash/slash]\d{2,4}$`. -/
def datePat2 (s : List Char) : Bool :=
  let (n, r) := takeDigits s
  (1 ≤ n && n ≤ 2) &&
    (match dateSep r with
     | none => false
     | some r1 =>
       let (m, r2) := takeDigits r1
       (1 ≤ m && m ≤ 2) &&
         (match dateSep r2 with
          | none => false
          | some r3 =>
            let (k, r4) := takeDigits r3
            (2 ≤ k && k ≤ 4) && r4.isEmpty))

/-- The `date_pattern` regex of `_is_temporal_column`. -/
def dateRegexMatch (s : String) : Bool :=
  datePat1 s.toList || datePat2 s.toList

/-- Model of `pd.to_datetime(v, errors='coerce')` succeeding on one sampled
value.  pandas accepts (at least) the numeric `YYYY[dash/slash]MM[[dash/slash]DD]` and
`D[dash/slash]M[dash/slash]Y` shapes that the code's own fallback regex also describes; we
model exactly those shapes, which cover every value the verified properties
exercise (ISO periods such as `2024-01` parse, words such as `Basic` do
not). -/
def pdToDatetimeOk (v : Value) : Bool :=
  dateRegexMatch v.pyStr

/-- `PlotGenerator._is_temporal_column`: skip numeric-dtype columns, sample
the first 10 non-null values, succeed if more than 80 percent parse as
datetimes, otherwise if more than 80 percent match the fallback date
regex. -/
def is_temporal_column (vs : List Value) : Bool :=
  if isNumericDtype vs then false
  else
    let sample := (vs.filter (fun v => !v.isNone)).take 10
    if sample.length == 0 then false
    else
      let parsed := (sample.filter pdToDatetimeOk).length
      if 4 * sample.length < 5 * parsed then true
      else
        let nMatch := (sample.filter (fun v => dateRegexMatch v.pyStr)).length
        4 * sample.length < 5 * nMatch

/-- `PlotGenerator._has_time_column`: some DataFrame column is temporal. -/
def has_time_column (results : List Row) : Bool :=
  if results.length == 0 then false
  else (dfColumns results).any (fun col => is_temporal_column (columnValues results col))

/-- `PlotGenerator.should_visualize` — the plot generator's own, stricter
check, independent of the assessor's verdict. -/
def should_visualize (query : String) (results : List Row) : Bool :=
  if results.length == 0 then false
  else if results.length == 1 && 2 < (results.headD []).length then false
  else if containsSelectStar query then false
  else
    let has_aggregation :=
      ["COUNT", "SUM", "AVG", "MAX", "MIN", "GROUP BY"].any
        (fun kw => containsWordCI query kw)
    let has_time := has_time_column results
    has_aggregation || has_time || 1 < results.length

/-- The pie condition of `_detect_chart_type` for one numeric column: the
non-null values are non-empty, lie in `[0, 1]` or in `[0, 100]`, and the
frame has at most 10 rows. -/
def pieColumnOk (nRows : Nat) (vs : List Value) : Bool :=
  match vs.filterMap Value.toRat? with
  | [] => false
  | v :: rest =>
    let mn := rest.foldl min v
    let mx := rest.foldl max v
    ((0 ≤ mn && mn ≤ 1 && 0 ≤ mx && mx ≤ 1) ||
     (0 ≤ mn && mn ≤ 100 && 0 ≤ mx && mx ≤ 100)) && nRows ≤ 10

/-- `PlotGenerator._detect_chart_type`: line for temporal data with more than
2 rows, pie for ratio-like numeric columns with at most 10 rows, otherwise
bar (the final two-column categorical check and the default both return
bar). -/
def detect_chart_type (results : List Row) (query : String) : String :=
  if results.length == 0 then "bar"
  else
    let cols := dfColumns results
    let temporal_cols := cols.filter (fun c => is_temporal_column (columnValues results c))
    if !temporal_cols.isEmpty && 2 < results.length then "line"
    else
      let numeric_cols := cols.filter (fun c => isNumericDtype (columnValues results c))
      if numeric_cols.any (fun c => pieColumnOk results.length (columnValues results c)) then
        "pie"
      else if cols.length == 2 && results.length ≤ 20 &&
          numeric_cols.length == 1 && cols.length - numeric_cols.length == 1 then
        "bar"
      else "bar"

/-- The observable content of a generated Plotly figure: the chosen chart
family and the data it is built from.  The figure object itself belongs to
the external charting capability. -/
structure Plot where
  chart_type : String
  rows : List Row
deriving DecidableEq, Repr

/-- `PlotGenerator.generate_plot`: `None` unless the generator's own
`should_visualize` accepts, else a figure of the detected chart type. -/
def generate_plot (query : String) (results : List Row) : Option Plot :=
  if should_visualize query results then
    some { chart_type := detect_chart_type results query, rows := results }
  else none

end PlotGenerator

/-! The agent proper (`nl2sql_agent_mapreduce.py`): prompt construction, SQL
generation, and the bounded self-correction loop. -/

/-- A table-search hit as consumed by the prompt builders; only the
`document` field is read (`table['document']`). -/
structure TableDoc where
  document : String
deriving DecidableEq, Repr

/-- An example-query search hit; the prompt builders use `.get` with default
`N/A`, so each field may be absent. -/
structure ExampleDoc where
  question : Option String := none
  query : Option String := none
  reasoning : Option String := none
deriving DecidableEq, Repr

/-- The shared table/example section of both SQL prompts. -/
def promptContext (tables : List TableDoc) (queries : List ExampleDoc)
    (acc : String) : String :=
  let acc := tables.foldl (fun acc t => acc ++ "\n" ++ t.document ++ "\n") acc
  if queries.isEmpty then acc
  else
    queries.foldl
      (fun acc q =>
        acc ++ "\nQuestion: " ++ q.question.getD "N/A" ++ "\n"
          ++ "SQL: " ++ q.query.getD "N/A" ++ "\n"
          ++ "Reasoning: " ++ q.reasoning.getD "N/A" ++ "\n")
      (acc ++ "\n\nEXAMPLE QUERIES:\n")

/-- `NL2SQLAgentMapReduce._build_sql_prompt`. -/
def build_sql_prompt (question : String) (tables : List TableDoc)
    (queries : List ExampleDoc) : String :=
  let acc := "You are an expert SQL query generator. Generate a SQL query to answer the user's question.\n\nUSER QUESTION: "
    ++ question ++ "\n\nAVAILABLE TABLES:\n"
  let acc := promptContext tables queries acc
  acc ++ "\n\nINSTRUCTIONS:\n1. Generate a valid SQLite query\n2. Use proper JOINs based on table relationships\n3. Follow the patterns from example queries when applicable\n4. Keep the query simple and efficient\n5. Return ONLY the SQL query, no explanations\n\nSQL Query:"

/-- One record of the loop's `execution_history` (`attempt` is 1-based). -/
structure AttemptRec where
  attempt : Nat
  sql : String
  error : Option String
deriving DecidableEq, Repr

/-- Python `f"{error}"` for the stored error field. -/
def pyOptStr : Option String → String
  | some s => s
  | none => "None"

/-- The lines `_build_sql_correction_prompt` appends for one prior attempt. -/
def renderAttempt (a : AttemptRec) : String :=
  "\nAttempt " ++ toString a.attempt ++ ":\n"
    ++ "SQL: " ++ a.sql ++ "\n"
    ++ "Error: " ++ pyOptStr a.error ++ "\n"

/-- Everything of the correction prompt before the per-attempt history
lines. -/
def correctionHead (question : String) (tables : List TableDoc)
    (queries : List ExampleDoc) : String :=
  let acc := "You are an expert SQL query generator with self-correction capabilities.\n\nUSER QUESTION: "
    ++ question ++ "\n\nAVAILABLE TABLES:\n"
  let acc := promptContext tables queries acc
  acc ++ "\n\n⚠️ PREVIOUS ATTEMPTS AND ERRORS:\n"

/-- Everything of the correction prompt after the per-attempt history
lines. -/
def correctionTail : String :=
  "\n\n🔧 SELF-CORRECTION INSTRUCTIONS:\n1. Analyze the errors from previous attempts carefully\n2. Common SQL errors to fix:\n   - Column name typos or case sensitivity issues\n   - Incorrect table names or missing table aliases\n   - Wrong JOIN conditions or missing JOINs\n   - Invalid aggregation without GROUP BY\n   - Syntax errors (missing commas, parentheses, quotes)\n   - Using columns not in GROUP BY clause\n3. Generate a CORRECTED SQL query that fixes the errors\n4. Double-check column names match the table schemas exactly\n5. Ensure all JOINs use correct foreign key relationships\n6. Return ONLY the corrected SQL query, no explanations\n\nCORRECTED SQL Query:"

/-- `NL2SQLAgentMapReduce._build_sql_correction_prompt`: the head, then one
block per entry of `execution_history` in order, then the fixed
instructions. -/
def build_sql_correction_prompt (question : String) (tables : List TableDoc)
    (queries : List ExampleDoc) (execution_history : List AttemptRec) : String :=
  let acc := correctionHead question tables queries
  let acc := execution_history.foldl (fun acc a => acc ++ renderAttempt a) acc
  acc ++ correctionTail

/-- Code-fence stripping shared by `_generate_sql` (tag `sql`) and
`analyze_question` (tag `json`): if a tagged fence occurs, take what is
between it and the next fence; else if a bare fence occurs, take what is
between the first two fences; else the text unchanged. -/
def stripFences (tag s : String) : String :=
  if strContains s ("```" ++ tag) then
    pyStrip ((((s.splitOn ("```" ++ tag)).getD 1 "").splitOn "```").getD 0 "")
  else if strContains s "```" then
    pyStrip ((((s.splitOn "```").getD 1 "").splitOn "```").getD 0 "")
  else s

/-- `NL2SQLAgentMapReduce._generate_sql`: invoke the completion capability
`llm` on the prompt, strip whitespace and code fences, and pair the query
with the fixed reasoning string. -/
def generate_sql (llm : String → String) (prompt : String) : String × String :=
  let sql := pyStrip (llm prompt)
  let sql := stripFences "sql" sql
  (sql, "Generated SQL query based on available tables and example patterns.")

/-- The success dict returned by `_execute_single_query`. -/
structure SuccessDict where
  question : String
  sql : String
  reasoning : String
  results : List Row
  columns : List String
  plot : Option PlotGenerator.Plot
  visualization_assessment : VisualizationAssessor.Verdict
  attempts : Nat
deriving DecidableEq, Repr

/-- The failure dict returned by `_execute_single_query` after exhausting all
retries. -/
structure FailureDict where
  question : String
  sql : String
  reasoning : String
  error : String
  results : List Row
  columns : List String
  execution_history : List AttemptRec
deriving DecidableEq, Repr

/-- Terminal result of one `_execute_single_query` invocation. -/
inductive Outcome where
  | success (d : SuccessDict)
  | failure (d : FailureDict)
deriving DecidableEq, Repr

/-- `list(results[0].keys()) if results else []`. -/
def columnsOf (results : List Row) : List String :=
  match results with
  | [] => []
  | r :: _ => r.map Prod.fst

/-- State of one `_execute_single_query` run: the returned dict together with
the loop's locals — every prompt handed to the generator, in attempt order,
and the final `execution_history`. -/
structure LoopState where
  outcome : Outcome
  prompts : List String
  history : List AttemptRec
deriving DecidableEq, Repr

/-- One iteration of the `for attempt in range(max_retries + 1)` loop of
`_execute_single_query`, recursing on `fuel`, the number of iterations still
allowed after the current one (`fuel = maxRetries - attempt`).  The first
equation is the final iteration (no retry left: exhausting the budget returns
the failure dict); the second is an earlier iteration (an execution error
leads to the next attempt).  `llm` is the completion capability behind
`_generate_sql`; `execQ` is `DatabaseConnector.execute_query`, returning rows
and an optional error message. -/
def loopAux (llm : String → String) (execQ : String → List Row × Option String)
    (question : String) (tables : List TableDoc) (queries : List ExampleDoc)
    (maxRetries : Nat) : Nat → Nat → List AttemptRec → LoopState
  | 0, attempt, hist =>
    let prompt :=
      if attempt = 0 then build_sql_prompt question tables queries
      else build_sql_correction_prompt question tables queries hist
    let sr := generate_sql llm prompt
    let er := execQ sr.1
    let hist2 := hist ++ [⟨attempt + 1, sr.1, er.2⟩]
    match er.2 with
    | none =>
      let columns := columnsOf er.1
      let viz := VisualizationAssessor.should_visualize question sr.1 er.1 columns
      let plot :=
        if viz.should_visualize then PlotGenerator.generate_plot sr.1 er.1 else none
      { outcome := .success
          { question := question, sql := sr.1, reasoning := sr.2, results := er.1,
            columns := columns, plot := plot, visualization_assessment := viz,
            attempts := attempt + 1 },
        prompts := [prompt], history := hist2 }
    | some e =>
      { outcome := .failure
          { question := question, sql := sr.1, reasoning := sr.2,
            error := "Failed after " ++ toString (maxRetries + 1)
              ++ " attempts. Last error: " ++ e,
            results := [], columns := [], execution_history := hist2 },
        prompts := [prompt], history := hist2 }
  | fuel + 1, attempt, hist =>
    let prompt :=
      if attempt = 0 then build_sql_prompt question tables queries
      else build_sql_correction_prompt question tables queries hist
    let sr := generate_sql llm prompt
    let er := execQ sr.1
    let hist2 := hist ++ [⟨attempt + 1, sr.1, er.2⟩]
    match er.2 with
    | none =>
      let columns := columnsOf er.1
      let viz := VisualizationAssessor.should_visualize question sr.1 er.1 columns
      let plot :=
        if viz.should_visualize then PlotGenerator.generate_plot sr.1 er.1 else none
      { outcome := .success
          { question := question, sql := sr.1, reasoning := sr.2, results := er.1,
            columns := columns, plot := plot, visualization_assessment := viz,
            attempts := attempt + 1 },
        prompts := [prompt], history := hist2 }
    | some _ =>
      let rest := loopAux llm execQ question tables queries maxRetries
        fuel (attempt + 1) hist2
      { outcome := rest.outcome, prompts := prompt :: rest.prompts,
        history := rest.history }

/-- `NL2SQLAgentMapReduce._execute_single_query` with its loop locals
exposed. -/
def execute_single_query_full (llm : String → String)
    (execQ : String → List Row × Option String) (question : String)
    (tables : List TableDoc) (queries : List ExampleDoc)
    (maxRetries : Nat) : LoopState :=
  loopAux llm execQ question tables queries maxRetries maxRetries 0 []

/-- `NL2SQLAgentMapReduce._execute_single_query`: just the returned dict. -/
def execute_single_query (llm : String → String)
    (execQ : String → List Row × Option String) (question : String)
    (tables : List TableDoc) (queries : List ExampleDoc)
    (maxRetries : Nat) : Outcome :=
  (execute_single_query_full llm execQ question tables queries maxRetries).outcome

/-! The question classifier (`query_planner.py`). -/

/-- The classification dict built from the model's JSON answer.  Both
`is_complex` and `sub_queries` may be absent from the parsed JSON object
(the code reads the former with `.get` and forces the latter only in the
not-complex case), so both are `Option`s; `none` models a missing key. -/
structure Analysis where
  is_complex : Option Bool := none
  reasoning : String := ""
  sub_queries : Option (List String) := none
deriving DecidableEq, Repr

/-- Python truthiness of `result.get(key)` for a key modelled as
`Option Bool`: a missing key is `None`, which is falsy. -/
def truthy : Option Bool → Bool
  | some b => b
  | none => false

/-- The classification prompt of `QueryPlanner.analyze_question`. -/
def plannerPrompt (question : String) : String :=
  "Analyze the following user question and determine if it requires multiple independent SQL queries to answer.\n\nUSER QUESTION: "
    ++ question
    ++ "\n\nA question is COMPLEX if it asks for:\n1. Multiple distinct metrics or calculations (e.g., \"total customers AND churn rate by country\")\n2. Information from different time periods or segments that can't be combined in a single query\n3. Multiple unrelated aggregations\n\nA question is SIMPLE if it asks for:\n1. A single metric or calculation\n2. Data that can be retrieved with one SQL query\n3. Related information that can be JOINed in a single query\n\nIf the question is COMPLEX, break it down into 2-4 independent sub-questions that can be executed in parallel.\n\nRespond in JSON format:\n\x7b\n    \"is_complex\": true/false,\n    \"reasoning\": \"Explanation of why the question is complex or simple\",\n    \"sub_queries\": [\"sub-question 1\", \"sub-question 2\", ...]  // Only if complex\n\x7d\n\nJSON Response:"

/-- The body of the `try` block of `QueryPlanner.analyze_question`.  `complete`
is the chat-completion capability (it may raise); `parseJson` is `json.loads`
restricted to the expected object shape (it raises on anything else). -/
def analyzeAttempt (complete : String → Except String String)
    (parseJson : String → Except String Analysis)
    (question : String) : Except String Analysis :=
  match complete (plannerPrompt question) with
  | .error e => .error e
  | .ok response =>
    let result_text := pyStrip response
    let result_text := stripFences "json" result_text
    match parseJson result_text with
    | .error e => .error e
    | .ok result =>
      if truthy result.is_complex then .ok result
      else .ok { result with sub_queries := some [] }

/-- `QueryPlanner.analyze_question`: the `try` body, with any raised error
converted to the simple-path default. -/
def analyze_question (complete : String → Except String String)
    (parseJson : String → Except String Analysis)
    (question : String) : Analysis :=
  match analyzeAttempt complete parseJson question with
  | .ok result => result
  | .error e =>
    { is_complex := some false,
      reasoning := "Error analyzing question: " ++ e ++ ". Treating as simple query.",
      sub_queries := some [] }

/-! The map-reduce orchestrator (`nl2sql_agent_mapreduce.py`). -/

/-- The synthesis dict produced by `ResultSynthesizer.synthesize_results`. -/
structure Synthesis where
  unified_answer : String
  key_insights : List String
deriving DecidableEq, Repr

/-- The `complex`-typed response dict of `_execute_map_reduce`. -/
structure ComplexDict where
  question : String
  execution_plan : String
  sub_queries_count : Nat
  sub_queries : List Outcome
  unified_answer : String
  key_insights : List String
deriving DecidableEq, Repr

/-- The `simple`-typed response dict of `_execute_simple_query`. -/
structure SimpleDict where
  question : String
  sql : String
  reasoning : String
  results : List Row
  columns : List String
  plot : Option PlotGenerator.Plot
  visualization_assessment : Option VisualizationAssessor.Verdict
  summary : Option String
  key_insights : List String
deriving DecidableEq, Repr

/-- The discriminated response of `process_question`. -/
inductive Response where
  | simple (d : SimpleDict)
  | complexResp (d : ComplexDict)
  | error (e : String) (question : String)
deriving DecidableEq, Repr

/-- Model of `asyncio.gather` joining concurrently running tasks: the tasks
are created in list order; `sched` is the order in which they happen to
complete; each completion stores its result in the slot of its creation
index.  The joined value is the slot list — by construction a function of
the task list and the set of completed indices only. -/
def gatherSched {α : Type} (tasks : List α) (sched : List Nat) : List (Option α) :=
  sched.foldl (fun acc i => acc.set i tasks[i]?) (List.replicate tasks.length none)

/-- `NL2SQLAgentMapReduce._execute_map_reduce`, with the completion order of
the concurrent sub-query tasks exposed as `sched`.  `execOne` is
`_execute_single_query` applied to one sub-question; `synth` is
`ResultSynthesizer.synthesize_results`.  Reading `analysis['sub_queries']`
raises a `KeyError` if the classifier's dict lacks the key. -/
def execute_map_reduce (execOne : String → Outcome)
    (synth : String → List Outcome → Synthesis) (sched : List Nat)
    (question : String) (analysis : Analysis) : Except String Response :=
  match analysis.sub_queries with
  | none => .error "KeyError: sub_queries"
  | some sub_queries =>
    let tasks := sub_queries.map execOne
    let sub_results := (gatherSched tasks sched).reduceOption
    let synthesis := synth question sub_results
    .ok (Response.complexResp
      { question := question, execution_plan := analysis.reasoning,
        sub_queries_count := sub_queries.length, sub_queries := sub_results,
        unified_answer := synthesis.unified_answer,
        key_insights := synthesis.key_insights })

/-- The body of the `try` block of `process_question`: classify, then route
to the map-reduce branch or the simple branch.  The two branches are the
(possibly raising) computations `mapReduce` and `simpleQ`; reading
`analysis['is_complex']` raises a `KeyError` when the key is absent. -/
def processBody (analyze : String → Except String Analysis)
    (mapReduce : String → Analysis → Except String Response)
    (simpleQ : String → Except String Response)
    (question : String) : Except String Response :=
  match analyze question with
  | .error e => .error e
  | .ok analysis =>
    match analysis.is_complex with
    | none => .error "KeyError: is_complex"
    | some isComplex =>
      if isComplex then mapReduce question analysis else simpleQ question

/-- `NL2SQLAgentMapReduce.process_question`: the `try` body with every raised
error converted to an `error`-typed response carrying the message and the
original question. -/
def process_question (analyze : String → Except String Analysis)
    (mapReduce : String → Analysis → Except String Response)
    (simpleQ : String → Except String Response)
    (question : String) : Response :=
  match processBody analyze mapReduce simpleQ question with
  | .ok r => r
  | .error e => .error e question

/-- Successful sub-results list of a response, if it is `complex`-typed. -/
def Response.subResults? : Response → Option (List Outcome)
  | .complexResp d => some d.sub_queries
  | _ => none

/-- Sub-results of a possibly-raising orchestrator computation. -/
def exceptSubResults? (r : Except String Response) : Option (List Outcome) :=
  match r with
  | .ok resp => resp.subResults?
  | .error _ => none

/-- Visualization verdict attached to an outcome, when it is a success. -/
def Outcome.successViz? : Outcome → Option VisualizationAssessor.Verdict
  | .success d => some d.visualization_assessment
  | .failure _ => none

/-- Plot attached to an outcome, when it is a success (`some none` means a
successful outcome whose `plot` field is `None`). -/
def Outcome.successPlot? : Outcome → Option (Option PlotGenerator.Plot)
  | .success d => some d.plot
  | .failure _ => none

/-- Concatenation of the per-attempt history blocks of the correction prompt,
in history order. -/
def historyBlock (history : List AttemptRec) : String :=
  history.foldl (fun acc a => acc ++ renderAttempt a) ""

/-- Invariant of the self-correction loop relating the state after running
`loopAux` from position (`attempt`, `fuel`, `hist`) to the loop inputs: the
history only grows, is bounded by the remaining iteration budget, carries
1-based consecutive attempt indices, one prompt is issued per history entry,
the reported attempt count on success and the implied count on failure both
equal the history length, and the prompt of every attempt after the first is
the correction prompt over exactly the history accumulated so far. -/
def LoopInv (question : String) (tables : List TableDoc) (queries : List ExampleDoc)
    (maxRetries attempt fuel : Nat) (hist : List AttemptRec) (st : LoopState) : Prop :=
  (∃ tail, st.history = hist ++ tail) ∧
  st.history.length ≤ attempt + fuel + 1 ∧
  st.prompts.length + hist.length = st.history.length ∧
  (∀ i a, st.history[i]? = some a → a.attempt = i + 1) ∧
  (∀ d, st.outcome = .success d → d.attempts = st.history.length) ∧
  (∀ d, st.outcome = .failure d →
    d.execution_history = st.history ∧
    st.history.length = attempt + fuel + 1 ∧
    ∃ e, d.error = "Failed after " ++ toString (maxRetries + 1)
      ++ " attempts. Last error: " ++ e) ∧
  (∀ k p, st.prompts[k]? = some p →
    p = if attempt + k = 0 then build_sql_prompt question tables queries
        else build_sql_correction_prompt question tables queries
          (st.history.take (attempt + k)))

/-- Concrete fixture: two rows over columns `period`, `a`, `b` whose `period`
values are plan names, not dates. -/
def periodRows : List Row :=
  [[("period", .strV "Basic"), ("a", .strV "x"), ("b", .strV "y")],
   [("period", .strV "Premium"), ("a", .strV "z"), ("b", .strV "w")]]

/-- Concrete fixture from the decision-table test cases: two monthly revenue
rows. -/
def monthRows : List Row :=
  [[("month", .strV "2024-01"), ("revenue", .intV 1000)],
   [("month", .strV "2024-02"), ("revenue", .intV 1200)]]

/-- Concrete fixture from the decision-table test cases: churn rate by
country. -/
def churnRows : List Row :=
  [[("country", .strV "USA"), ("churn_rate", .floatV (49/2))],
   [("country", .strV "UK"), ("churn_rate", .floatV (231/10))]]

/-- Concrete fixture: a two-row, two-column result set as returned by a
`SELECT *` query. -/
def starRows : List Row :=
  [[("a", .intV 1), ("b", .intV 2)], [("a", .intV 3), ("b", .intV 4)]]

/-! Helper lemmas. -/

/-- Folding the per-attempt rendering over any accumulator appends the
history block. -/
theorem foldl_renderAttempt (history : List AttemptRec) (acc : String) :
    history.foldl (fun acc a => acc ++ renderAttempt a) acc
      = acc ++ historyBlock history := by
  induction history generalizing acc with
  | nil => simp [historyBlock]
  | cons a t ih =>
    simp only [historyBlock, List.foldl_cons]
    rw [ih, ih ("" ++ renderAttempt a)]
    simp [String.append_assoc]

/-- The correction prompt splits into a fixed head, the ordered history
block, and a fixed tail. -/
theorem build_sql_correction_prompt_decomp (question : String)
    (tables : List TableDoc) (queries : List ExampleDoc)
    (history : List AttemptRec) :
    build_sql_correction_prompt question tables queries history
      = correctionHead question tables queries ++ historyBlock history
          ++ correctionTail := by
  simp only [build_sql_correction_prompt, foldl_renderAttempt]

/-- Appending a record with the next 1-based attempt index preserves the
consecutive-index property of a history. -/
theorem ids_append {hist : List AttemptRec} {x : AttemptRec}
    (hids : ∀ i a, hist[i]? = some a → a.attempt = i + 1)
    (hx : x.attempt = hist.length + 1) :
    ∀ i a, (hist ++ [x])[i]? = some a → a.attempt = i + 1 := by
  intro i a hia
  by_cases hi : i < hist.length
  · exact hids i a (by rwa [List.getElem?_append_left hi] at hia)
  · rw [List.getElem?_append_right (Nat.le_of_not_lt hi)] at hia
    cases hsub : i - hist.length with
    | zero =>
      rw [hsub] at hia
      simp only [List.getElem?_cons_zero, Option.some.injEq] at hia
      rw [← hia, hx]
      omega
    | succ n =>
      rw [hsub] at hia
      simp at hia

/-- The loop invariant holds for every run of `loopAux` started at a
position whose history has one record per previous attempt, with consecutive
1-based indices. -/
theorem loopAux_inv (llm : String → String) (execQ : String → List Row × Option String)
    (question : String) (tables : List TableDoc) (queries : List ExampleDoc)
    (maxRetries : Nat) :
    ∀ (fuel attempt : Nat) (hist : List AttemptRec),
      attempt = hist.length →
      (∀ i a, hist[i]? = some a → a.attempt = i + 1) →
      LoopInv question tables queries maxRetries attempt fuel hist
        (loopAux llm execQ question tables queries maxRetries fuel attempt hist) := by
  intro fuel
  induction fuel with
  | zero =>
    intro attempt hist hlen hids
    simp only [loopAux]
    split
    · -- execution succeeded
      refine ⟨⟨_, rfl⟩, by simp [← hlen], by simp [Nat.add_comm],
        ids_append hids (by simp [← hlen]), ?_, ?_, ?_⟩
      · intro d hd
        simp only [Outcome.success.injEq] at hd
        rw [← hd]
        simp [← hlen]
      · intro d hd
        simp at hd
      · intro k p hkp
        cases k with
        | zero =>
          simp only [List.getElem?_cons_zero, Option.some.injEq] at hkp
          rw [← hkp, Nat.add_zero, List.take_left' hlen.symm]
        | succ n =>
          simp at hkp
    · -- execution failed and the retry budget is exhausted
      refine ⟨⟨_, rfl⟩, by simp [← hlen], by simp [Nat.add_comm],
        ids_append hids (by simp [← hlen]), ?_, ?_, ?_⟩
      · intro d hd
        simp at hd
      · intro d hd
        simp only [Outcome.failure.injEq] at hd
        rw [← hd]
        exact ⟨rfl, by simp [← hlen], _, rfl⟩
      · intro k p hkp
        cases k with
        | zero =>
          simp only [List.getElem?_cons_zero, Option.some.injEq] at hkp
          rw [← hkp, Nat.add_zero, List.take_left' hlen.symm]
        | succ n =>
          simp at hkp
  | succ fuel ih =>
    intro attempt hist hlen hids
    simp only [loopAux]
    split
    · -- execution succeeded
      refine ⟨⟨_, rfl⟩, by simp [← hlen], by simp [Nat.add_comm],
        ids_append hids (by simp [← hlen]), ?_, ?_, ?_⟩
      · intro d hd
        simp only [Outcome.success.injEq] at hd
        rw [← hd]
        simp [← hlen]
      · intro d hd
        simp at hd
      · intro k p hkp
        cases k with
        | zero =>
          simp only [List.getElem?_cons_zero, Option.some.injEq] at hkp
          rw [← hkp, Nat.add_zero, List.take_left' hlen.symm]
        | succ n =>
          simp at hkp
    · -- execution failed with retries remaining: recurse
      rename_i e heq
      rw [heq]
      simp only [LoopInv]
      obtain ⟨⟨tail, htail⟩, hle, hpl, hids3, hsucc, hfail, hprompts⟩ :=
        ih (attempt + 1)
          (hist ++ [⟨attempt + 1,
            (generate_sql llm (if attempt = 0 then build_sql_prompt question tables queries
              else build_sql_correction_prompt question tables queries hist)).1, some e⟩])
          (by simp [← hlen]) (ids_append hids (by simp [← hlen]))
      refine ⟨⟨_, by rw [htail, List.append_assoc]⟩, by omega, ?_,
        hids3, hsucc, ?_, ?_⟩
      · simp only [List.length_cons]
        simp only [List.length_append, List.length_cons, List.length_nil] at hpl
        omega
      · intro d hd
        obtain ⟨h1, h2, h3⟩ := hfail d hd
        refine ⟨h1, by omega, h3⟩
      · intro k p hkp
        cases k with
        | zero =>
          simp only [List.getElem?_cons_zero, Option.some.injEq] at hkp
          have htake := @List.take_left' AttemptRec hist ([(⟨attempt + 1,
            (generate_sql llm (if attempt = 0 then build_sql_prompt question tables queries
              else build_sql_correction_prompt question tables queries hist)).1,
            some e⟩ : AttemptRec)] ++ tail) attempt hlen.symm
          rw [← hkp, Nat.add_zero, htail, List.append_assoc, htake]
        | succ n =>
          simp only [List.getElem?_cons_succ] at hkp
          have hp1 := hprompts n p hkp
          rw [if_neg (by omega)] at hp1
          rw [show attempt + (n + 1) = attempt + 1 + n by omega, if_neg (by omega)]
          exact hp1

/-! Claim theorems. -/

/-- C1: one invocation of `_execute_single_query` performs at most
`maxRetries + 1` generate/execute attempts (the history gains exactly one
record per attempt), the `attempts` field reported on success equals the
number of history entries at that moment, and a failure dict carries the full
history, whose length is exactly the `maxRetries + 1` count implied by its
`Failed after ... attempts` message. -/
theorem execute_single_query_attempt_count
    (llm : String → String) (execQ : String → List Row × Option String)
    (question : String) (tables : List TableDoc) (queries : List ExampleDoc)
    (maxRetries : Nat) :
    (execute_single_query_full llm execQ question tables queries maxRetries).history.length
      ≤ maxRetries + 1
    ∧ (∀ d,
        (execute_single_query_full llm execQ question tables queries maxRetries).outcome
          = .success d →
        d.attempts
          = (execute_single_query_full llm execQ question tables queries
              maxRetries).history.length)
    ∧ (∀ d,
        (execute_single_query_full llm execQ question tables queries maxRetries).outcome
          = .failure d →
        d.execution_history
            = (execute_single_query_full llm execQ question tables queries
                maxRetries).history
          ∧ (execute_single_query_full llm execQ question tables queries
              maxRetries).history.length = maxRetries + 1
          ∧ ∃ e, d.error = "Failed after " ++ toString (maxRetries + 1)
              ++ " attempts. Last error: " ++ e) := by
  obtain ⟨-, hle, -, -, hsucc, hfail, -⟩ :=
    loopAux_inv llm execQ question tables queries maxRetries maxRetries 0 []
      rfl (by intro i a h; simp at h)
  refine ⟨by simpa using hle, hsucc, fun d hd => ?_⟩
  obtain ⟨h1, h2, h3⟩ := hfail d hd
  exact ⟨h1, by simpa using h2, h3⟩

/-- C1 witness: a run succeeding on its first attempt reports `attempts = 1`,
the length of its one-record history. -/
theorem execute_single_query_attempt_count_witness :
    ({ question := "q", sql := "OK",
       reasoning := "Generated SQL query based on available tables and example patterns.",
       results := [], columns := [], plot := none,
       visualization_assessment :=
         { should_visualize := false, reason := "No data returned from query",
           chart_type := none },
       attempts := 1 } : SuccessDict).attempts
      = (execute_single_query_full (fun _ => "OK") (fun _ => ([], none))
          "q" [] [] 2).history.length :=
  (execute_single_query_attempt_count (fun _ => "OK") (fun _ => ([], none))
      "q" [] [] 2).2.1 _ rfl

/-- C2: every prompt after the first that a run of `_execute_single_query`
hands to the generator is `_build_sql_correction_prompt` applied to exactly
the history accumulated so far — all `k` prior attempts with their SQL and
error, in attempt order (1-based indices 1..k), laid out block by block
between the fixed prompt head and tail — never just the latest failure. -/
theorem correction_prompt_sees_full_history
    (llm : String → String) (execQ : String → List Row × Option String)
    (question : String) (tables : List TableDoc) (queries : List ExampleDoc)
    (maxRetries k : Nat) (p : String)
    (hk : 0 < k)
    (hp : (execute_single_query_full llm execQ question tables queries
        maxRetries).prompts[k]? = some p) :
    p = build_sql_correction_prompt question tables queries
        ((execute_single_query_full llm execQ question tables queries
          maxRetries).history.take k)
    ∧ p = correctionHead question tables queries
        ++ historyBlock ((execute_single_query_full llm execQ question tables
            queries maxRetries).history.take k)
        ++ correctionTail
    ∧ ((execute_single_query_full llm execQ question tables queries
        maxRetries).history.take k).length = k
    ∧ (∀ i a, ((execute_single_query_full llm execQ question tables queries
        maxRetries).history.take k)[i]? = some a → a.attempt = i + 1) := by
  obtain ⟨-, -, hpl, hids, -, -, hprompts⟩ :=
    loopAux_inv llm execQ question tables queries maxRetries maxRetries 0 []
      rfl (by intro i a h; simp at h)
  rw [show loopAux llm execQ question tables queries maxRetries maxRetries 0 []
      = execute_single_query_full llm execQ question tables queries maxRetries
    from rfl] at hpl hids hprompts
  have hp1 := hprompts k p hp
  rw [if_neg (by omega), Nat.zero_add] at hp1
  have hklt : k < (execute_single_query_full llm execQ question tables queries
      maxRetries).prompts.length := by
    by_contra hcon
    rw [List.getElem?_eq_none (Nat.le_of_not_lt hcon)] at hp
    cases hp
  have hhlen : k < (execute_single_query_full llm execQ question tables queries
      maxRetries).history.length := by
    simp only [List.length_nil, Nat.add_zero] at hpl
    omega
  refine ⟨hp1, ?_, ?_, ?_⟩
  · rw [hp1, build_sql_correction_prompt_decomp]
  · simp only [List.length_take]
    omega
  · intro i a hia
    have hilt : i < k := by
      by_contra hcon
      have hlen : ((execute_single_query_full llm execQ question tables queries
          maxRetries).history.take k).length ≤ i := by
        simp only [List.length_take]
        omega
      rw [List.getElem?_eq_none hlen] at hia
      cases hia
    exact hids i a (by rwa [List.getElem?_take_of_lt hilt] at hia)

set_option maxRecDepth 8000 in
/-- C2 witness: in a run whose first attempt fails, the second prompt is the
correction prompt over the one-record history, decomposing into head, history
block and tail. -/
theorem correction_prompt_sees_full_history_witness :
    build_sql_correction_prompt "q" [] []
        ((execute_single_query_full (fun _ => "BAD") (fun _ => ([], some "boom"))
          "q" [] [] 1).history.take 1)
      = correctionHead "q" [] []
        ++ historyBlock ((execute_single_query_full (fun _ => "BAD")
            (fun _ => ([], some "boom")) "q" [] [] 1).history.take 1)
        ++ correctionTail :=
  (correction_prompt_sees_full_history (fun _ => "BAD") (fun _ => ([], some "boom"))
    "q" [] [] 1 1
    (build_sql_correction_prompt "q" [] []
      ((execute_single_query_full (fun _ => "BAD") (fun _ => ([], some "boom"))
        "q" [] [] 1).history.take 1))
    (by decide) rfl).2.1

/-- C8: `should_visualize` is a pure function of the result-set shape — its
verdict is independent of the `question` and `sql` arguments (being a total
Lean function of its inputs, it is deterministic and free of external calls
by construction). -/
theorem should_visualize_ignores_question_sql
    (q1 sql1 q2 sql2 : String) (results : List Row) (columns : List String) :
    VisualizationAssessor.should_visualize q1 sql1 results columns
      = VisualizationAssessor.should_visualize q2 sql2 results columns := rfl

/-- C6 counterexample: on two rows with three columns whose `period` column
holds plan names, the assessor recommends the line family purely because of
the column NAME, although no column's values parse as dates under the
value-driven sampling test (`is_temporal_column`); so the assessor's line
decision is not value-driven. -/
theorem assessor_line_by_name_only_cex :
    (VisualizationAssessor.should_visualize "metrics by period"
        "SELECT period, a, b FROM t" periodRows ["period", "a", "b"]).chart_type
      = some "line"
    ∧ (VisualizationAssessor.should_visualize "metrics by period"
        "SELECT period, a, b FROM t" periodRows ["period", "a", "b"]).should_visualize
      = true
    ∧ PlotGenerator.is_temporal_column (PlotGenerator.columnValues periodRows "period")
      = false
    ∧ PlotGenerator.is_temporal_column (PlotGenerator.columnValues periodRows "a")
      = false
    ∧ PlotGenerator.is_temporal_column (PlotGenerator.columnValues periodRows "b")
      = false := by decide

/-- C6 amended: for result sets with at least 2 rows and at least 3 columns,
the assessor decides the line family if and only if some column NAME contains
a time keyword (`_has_time_column`), independently of the cell values; the
value-driven sampling test of the spec exists only in the plot generator's
`_is_temporal_column`. -/
theorem assessor_line_iff_name_keyword
    (question sql : String) (results : List Row) (columns : List String)
    (h2 : 2 ≤ results.length) (h3 : 3 ≤ columns.length) :
    (VisualizationAssessor.should_visualize question sql results columns).chart_type
        = some "line"
      ↔ VisualizationAssessor.has_time_column columns = true := by
  simp only [VisualizationAssessor.should_visualize]
  rw [if_neg (by omega : ¬results.length = 0),
    if_neg (by omega : ¬(results.length = 1 ∧ columns.length = 1)),
    if_neg (by omega : ¬(results.length = 1 ∧ 1 < columns.length)),
    if_neg (by omega : ¬(2 ≤ results.length ∧ columns.length = 2)),
    if_pos ⟨h2, h3⟩]
  by_cases ht : VisualizationAssessor.has_time_column columns
  · simp [ht]
  · simp only [ht, if_neg, Bool.false_eq_true, iff_false]
    cases hc : VisualizationAssessor.has_category_and_metrics columns results <;>
      simp [hc, ht]

/-- C6 amended, witness: the iff applied to the `periodRows` fixture. -/
theorem assessor_line_iff_name_keyword_witness :
    (VisualizationAssessor.should_visualize "metrics by period"
        "SELECT period, a, b FROM t" periodRows ["period", "a", "b"]).chart_type
        = some "line"
      ↔ VisualizationAssessor.has_time_column ["period", "a", "b"] = true :=
  assessor_line_iff_name_keyword "metrics by period" "SELECT period, a, b FROM t"
    periodRows ["period", "a", "b"] (by decide) (by decide)

/-- C7 counterexample: on the spec's fourth decision-table case (two monthly
revenue rows) the chart family resolves to `bar`, not `line`: the generator's
`_detect_chart_type` chooses `line` only when the frame has MORE than 2 rows. -/
theorem decision_table_line_case_cex :
    PlotGenerator.detect_chart_type monthRows "SELECT month, revenue FROM sales"
      = "bar"
    ∧ ¬ PlotGenerator.detect_chart_type monthRows "SELECT month, revenue FROM sales"
      = "line"
    ∧ (VisualizationAssessor.should_visualize "q" "sql" monthRows
        ["month", "revenue"]).should_visualize = true
    ∧ PlotGenerator.is_temporal_column (PlotGenerator.columnValues monthRows "month")
      = true := by decide

/-- C7 amended: the decision-table cases as the code actually decides them —
empty results and the single scalar are not visualized (the scalar flagged for
scalar display), the country/churn and month/revenue pairs are visualized, and
the month/revenue family resolves to `bar` (the month column is detected as
temporal, but `line` additionally requires more than 2 rows). -/
theorem assessor_decision_table :
    (VisualizationAssessor.should_visualize "q" "s" [] []).should_visualize = false
    ∧ (VisualizationAssessor.should_visualize "q" "s"
        [[("total", .intV 5000)]] ["total"]).should_visualize = false
    ∧ (VisualizationAssessor.should_visualize "q" "s"
        [[("total", .intV 5000)]] ["total"]).display_format = some "scalar"
    ∧ (VisualizationAssessor.should_visualize "q" "s" churnRows
        ["country", "churn_rate"]).should_visualize = true
    ∧ (VisualizationAssessor.should_visualize "q" "s" monthRows
        ["month", "revenue"]).should_visualize = true
    ∧ PlotGenerator.generate_plot "SELECT month, revenue FROM sales" monthRows
      = some { chart_type := "bar", rows := monthRows } := by decide

/-- C10: a concrete successful execution whose attached visualization
assessment recommends a chart while the attached plot is `None`, because the
plot generator's own stricter `should_visualize` rejects the `SELECT *`
query. -/
theorem success_viz_without_plot :
    (execute_single_query (fun _ => "SELECT * FROM t")
        (fun _ => (starRows, none)) "q" [] [] 2).successViz?
      = some { should_visualize := true,
               reason := "Multiple rows with category-value pairs - ideal for charts",
               chart_type := some "auto" }
    ∧ (execute_single_query (fun _ => "SELECT * FROM t")
        (fun _ => (starRows, none)) "q" [] [] 2).successPlot? = some none
    ∧ PlotGenerator.should_visualize "SELECT * FROM t" starRows = false := by decide

/-- C3: `process_question` never propagates a raised error — whatever the
pipeline (classification, routing, map-reduce or simple execution) raises is
converted at the orchestrator boundary into an `error`-typed response
carrying the message and the original question, and a normally returned
response is passed through unchanged. -/
theorem process_question_shields_caller
    (analyze : String → Except String Analysis)
    (mapReduce : String → Analysis → Except String Response)
    (simpleQ : String → Except String Response) (question : String) :
    (∀ e, processBody analyze mapReduce simpleQ question = .error e →
      process_question analyze mapReduce simpleQ question = .error e question)
    ∧ (∀ r, processBody analyze mapReduce simpleQ question = .ok r →
      process_question analyze mapReduce simpleQ question = r) := by
  constructor
  · intro e he
    simp [process_question, he]
  · intro r hr
    simp [process_question, hr]

/-- C3 witness: a classifier that raises is converted to the error
response. -/
theorem process_question_shields_caller_witness :
    process_question (fun _ => Except.error "boom")
        (fun _ _ => Except.error "unused") (fun _ => Except.error "unused")
        "What is churn?"
      = Response.error "boom" "What is churn?" :=
  (process_question_shields_caller (fun _ => Except.error "boom")
    (fun _ _ => Except.error "unused") (fun _ => Except.error "unused")
    "What is churn?").1 "boom" rfl

/-- C4: if the completion call or the JSON parse raises, `analyze_question`
returns the simple-path default (`is_complex = False`, empty `sub_queries`)
with the failure reason recorded in `reasoning`, and never raises (it is a
total function); moreover every returned classification whose `is_complex`
is not truthy carries `sub_queries = []`. -/
theorem analyze_question_failure_default
    (complete : String → Except String String)
    (parseJson : String → Except String Analysis) (question : String) :
    (∀ e, analyzeAttempt complete parseJson question = .error e →
      analyze_question complete parseJson question
        = { is_complex := some false,
            reasoning := "Error analyzing question: " ++ e
              ++ ". Treating as simple query.",
            sub_queries := some [] })
    ∧ (truthy (analyze_question complete parseJson question).is_complex = false →
      (analyze_question complete parseJson question).sub_queries = some []) := by
  constructor
  · intro e he
    simp [analyze_question, he]
  · intro hfalse
    cases hc : complete (plannerPrompt question) with
    | error e => simp [analyze_question, analyzeAttempt, hc]
    | ok resp =>
      cases hp : parseJson (stripFences "json" (pyStrip resp)) with
      | error e =>
        simp [analyze_question, analyzeAttempt, hc, hp]
      | ok result =>
        by_cases hT : truthy result.is_complex = true
        · have hr : analyze_question complete parseJson question = result := by
            simp [analyze_question, analyzeAttempt, hc, hp, hT]
          rw [hr] at hfalse
          exact absurd (hT.symm.trans hfalse) (by decide)
        · simp [analyze_question, analyzeAttempt, hc, hp, hT]

/-- C4 witness: a failing completion call produces the default simple-path
classification with the reason recorded. -/
theorem analyze_question_failure_default_witness :
    analyze_question (fun _ => Except.error "boom") (fun _ => Except.ok {}) "hi"
      = { is_complex := some false,
          reasoning := "Error analyzing question: boom. Treating as simple query.",
          sub_queries := some [] }
    ∧ (analyze_question (fun _ => Except.error "boom") (fun _ => Except.ok {})
        "hi").sub_queries = some [] :=
  ⟨(analyze_question_failure_default (fun _ => Except.error "boom")
      (fun _ => Except.ok {}) "hi").1 "boom" rfl,
   (analyze_question_failure_default (fun _ => Except.error "boom")
      (fun _ => Except.ok {}) "hi").2 (by decide)⟩

/-- C5 counterexample: when the model's parsed JSON reports a composite
question with a single sub-question, `analyze_question` returns it unchanged
— the classification has `is_complex` true but only 1 sub-question, violating
the claimed 2-to-4 bound. -/
theorem analyze_question_bound_cex :
    truthy (analyze_question (fun _ => Except.ok "resp")
        (fun _ => Except.ok
          { is_complex := some true, reasoning := "two metrics",
            sub_queries := some ["only sub-question"] }) "q").is_complex = true
    ∧ (analyze_question (fun _ => Except.ok "resp")
        (fun _ => Except.ok
          { is_complex := some true, reasoning := "two metrics",
            sub_queries := some ["only sub-question"] }) "q").sub_queries
      = some ["only sub-question"]
    ∧ ¬ 2 ≤ ((analyze_question (fun _ => Except.ok "resp")
        (fun _ => Except.ok
          { is_complex := some true, reasoning := "two metrics",
            sub_queries := some ["only sub-question"] }) "q").sub_queries.getD
        []).length := by decide

/-- C5 amended: `analyze_question` does not enforce the 2-to-4 bound; when
the parsed model output is truthy-complex, the classification is returned
unchanged, so the bound on `sub_queries` holds exactly when the model's
parsed output already satisfies it.  (The 2-to-4 range is requested in the
prompt only.) -/
theorem analyze_question_passthrough
    (complete : String → Except String String)
    (parseJson : String → Except String Analysis) (question txt : String)
    (raw : Analysis)
    (hc : complete (plannerPrompt question) = .ok txt)
    (hp : parseJson (stripFences "json" (pyStrip txt)) = .ok raw)
    (hT : truthy raw.is_complex = true) :
    analyze_question complete parseJson question = raw := by
  simp [analyze_question, analyzeAttempt, hc, hp, hT]

/-- C5 amended, witness: a parsed composite classification with three
sub-questions is returned unchanged. -/
theorem analyze_question_passthrough_witness :
    analyze_question (fun _ => Except.ok "x")
        (fun _ => Except.ok
          { is_complex := some true, reasoning := "r",
            sub_queries := some ["a", "b", "c"] }) "q"
      = { is_complex := some true, reasoning := "r",
          sub_queries := some ["a", "b", "c"] } :=
  analyze_question_passthrough (fun _ => Except.ok "x")
    (fun _ => Except.ok
      { is_complex := some true, reasoning := "r",
        sub_queries := some ["a", "b", "c"] }) "q" "x"
    { is_complex := some true, reasoning := "r",
      sub_queries := some ["a", "b", "c"] } rfl rfl rfl

/-- Slot contents after any sequence of completions: a slot holds its task's
value exactly when its index has completed, independently of the completion
order. -/
theorem gatherSched_foldl_getElem? {α : Type} (tasks : List α) :
    ∀ (sched : List Nat) (acc : List (Option α)) (i : Nat),
      (sched.foldl (fun acc j => acc.set j tasks[j]?) acc)[i]?
        = if i ∈ sched ∧ i < acc.length then some tasks[i]? else acc[i]? := by
  intro sched
  induction sched with
  | nil => simp
  | cons j rest ih =>
    intro acc i
    simp only [List.foldl_cons]
    rw [ih]
    by_cases hij : i = j
    · subst hij
      by_cases hlt : i < acc.length
      · by_cases hmem : i ∈ rest
        · rw [if_pos ⟨hmem, by simpa using hlt⟩,
            if_pos ⟨List.mem_cons_self i rest, hlt⟩]
        · rw [if_neg (by simp [hmem]), if_pos ⟨List.mem_cons_self i rest, hlt⟩,
            List.getElem?_set_self hlt]
      · rw [if_neg (fun hc => hlt (by simpa using hc.2)),
          if_neg (fun hc => hlt hc.2),
          List.set_eq_of_length_le (Nat.le_of_not_lt hlt)]
    · rw [List.getElem?_set_ne (fun h => hij h.symm)]
      by_cases hmem : i ∈ rest
      · by_cases hlt : i < acc.length
        · rw [if_pos ⟨hmem, by simpa using hlt⟩,
            if_pos ⟨List.mem_cons_of_mem j hmem, hlt⟩]
        · rw [if_neg (fun hc => hlt (by simpa using hc.2)),
            if_neg (fun hc => hlt hc.2)]
      · rw [if_neg (fun hc => hmem hc.1),
          if_neg (fun hc => (List.mem_cons.mp hc.1).elim
            (fun h => hij h) (fun h => hmem h))]

/-- Joining after a completion schedule that covers every task index yields
the task results in task-creation order, regardless of the order of
completion. -/
theorem gatherSched_perm {α : Type} (tasks : List α) (sched : List Nat)
    (h : sched.Perm (List.range tasks.length)) :
    gatherSched tasks sched = tasks.map some := by
  apply List.ext_getElem?
  intro i
  rw [gatherSched, gatherSched_foldl_getElem?]
  by_cases hi : i < tasks.length
  · have hmem : i ∈ sched := h.mem_iff.mpr (List.mem_range.mpr hi)
    rw [if_pos ⟨hmem, by simpa using hi⟩, List.getElem?_map,
      List.getElem?_eq_getElem hi]
    rfl
  · rw [if_neg (fun hc => hi (by simpa using hc.2)),
      List.getElem?_replicate, if_neg hi,
      List.getElem?_map, List.getElem?_eq_none (Nat.le_of_not_lt hi)]
    rfl

/-- Stripping the `some` wrappers recovers the original list. -/
theorem reduceOption_map_some {α : Type} (l : List α) :
    (l.map some).reduceOption = l := by
  induction l with
  | nil => rfl
  | cons a t ih => simp [List.reduceOption_cons_of_some, ih]

/-- C9: in `_execute_map_reduce`, whatever order the concurrently dispatched
sub-question tasks complete in, the joined sub-results list equals the
sub-questions mapped through the execution loop: it has the same length and
order as the classifier's `sub_queries`, sub-result `i` is the outcome of
sub-question `i`, and a sub-question whose outcome is a `failure` dict keeps
its slot rather than aborting its siblings (the map is total over
`Outcome`). -/
theorem map_reduce_preserves_order
    (execOne : String → Outcome) (synth : String → List Outcome → Synthesis)
    (sched : List Nat) (question : String) (analysis : Analysis)
    (subQs : List String)
    (hsub : analysis.sub_queries = some subQs)
    (hperm : sched.Perm (List.range subQs.length)) :
    exceptSubResults? (execute_map_reduce execOne synth sched question analysis)
      = some (subQs.map execOne)
    ∧ (subQs.map execOne).length = subQs.length
    ∧ (∀ i : Nat, (subQs.map execOne)[i]? = (subQs[i]?).map execOne) := by
  refine ⟨?_, by simp, by intro i; simp⟩
  simp only [execute_map_reduce, hsub]
  rw [gatherSched_perm (subQs.map execOne) sched (by simpa using hperm),
    reduceOption_map_some]
  rfl

/-- C9 witness: three sub-questions, the middle one failing, joined under the
staggered completion order `[2, 0, 1]`, still produce the sub-results in
sub-question order. -/
theorem map_reduce_preserves_order_witness :
    exceptSubResults? (execute_map_reduce
        (fun s => Outcome.failure
          { question := s, sql := "", reasoning := "", error := "fail",
            results := [], columns := [], execution_history := [] })
        (fun _ _ => { unified_answer := "ans", key_insights := [] }) [2, 0, 1] "q"
        { is_complex := some true, reasoning := "r",
          sub_queries := some ["a", "b", "c"] })
      = some (["a", "b", "c"].map (fun s => Outcome.failure
          { question := s, sql := "", reasoning := "", error := "fail",
            results := [], columns := [], execution_history := [] })) :=
  (map_reduce_preserves_order
    (fun s => Outcome.failure
      { question := s, sql := "", reasoning := "", error := "fail",
        results := [], columns := [], execution_history := [] })
    (fun _ _ => { unified_answer := "ans", key_insights := [] }) [2, 0, 1] "q"
    { is_complex := some true, reasoning := "r",
      sub_queries := some ["a", "b", "c"] }
    ["a", "b", "c"] rfl (by decide)).1

end NL2SQL
